import Mathlib

/-!
Shallow embedding of nom's `src/error.rs`: the `ErrorKind` taxonomy with its
numeric-code and description tables, the `ParseError` / `ContextError` /
`FromExternalError` capability traits with their default methods, the default
concrete error type `Error<I>`, and the `context` combinator, together with
theorems settling the specification claims about them.

Rust references `&I` / `&mut I` are modelled by the referenced value itself
(so dereferencing is the identity on content), `&'static str` by `String`,
and trait default methods by Lean class default fields.
-/

namespace Nom

/-- The closed `ErrorKind` enumeration from `src/error.rs`, variants in source
order. -/
inductive ErrorKind : Type
  | Tag
  | MapRes
  | MapOpt
  | Alt
  | IsNot
  | IsA
  | SeparatedList
  | SeparatedNonEmptyList
  | Many0
  | Many1
  | ManyTill
  | Count
  | TakeUntil
  | LengthValue
  | TagClosure
  | Alpha
  | Digit
  | HexDigit
  | OctDigit
  | BinDigit
  | AlphaNumeric
  | Space
  | MultiSpace
  | LengthValueFn
  | Eof
  | Switch
  | TagBits
  | OneOf
  | NoneOf
  | Char
  | CrLf
  | RegexpMatch
  | RegexpMatches
  | RegexpFind
  | RegexpCapture
  | RegexpCaptures
  | TakeWhile1
  | Complete
  | Fix
  | Escaped
  | EscapedTransform
  | NonEmpty
  | ManyMN
  | Not
  | Permutation
  | Verify
  | TakeTill1
  | TakeWhileMN
  | TooLarge
  | Many0Count
  | Many1Count
  | Float
  | Satisfy
  | Fail
  | Many
  | Fold
  | Precedence
deriving DecidableEq

/-- `error_to_u32` from `src/error.rs`: converts an `ErrorKind` to a number.
The match arms are in source order with the source's numeric codes. -/
def error_to_u32 : ErrorKind → Nat
  | ErrorKind.Tag => 1
  | ErrorKind.MapRes => 2
  | ErrorKind.MapOpt => 3
  | ErrorKind.Alt => 4
  | ErrorKind.IsNot => 5
  | ErrorKind.IsA => 6
  | ErrorKind.SeparatedList => 7
  | ErrorKind.SeparatedNonEmptyList => 8
  | ErrorKind.Many1 => 9
  | ErrorKind.Count => 10
  | ErrorKind.TakeUntil => 12
  | ErrorKind.LengthValue => 15
  | ErrorKind.TagClosure => 16
  | ErrorKind.Alpha => 17
  | ErrorKind.Digit => 18
  | ErrorKind.AlphaNumeric => 19
  | ErrorKind.Space => 20
  | ErrorKind.MultiSpace => 21
  | ErrorKind.LengthValueFn => 22
  | ErrorKind.Eof => 23
  | ErrorKind.Switch => 27
  | ErrorKind.TagBits => 28
  | ErrorKind.OneOf => 29
  | ErrorKind.NoneOf => 30
  | ErrorKind.Char => 40
  | ErrorKind.CrLf => 41
  | ErrorKind.RegexpMatch => 42
  | ErrorKind.RegexpMatches => 43
  | ErrorKind.RegexpFind => 44
  | ErrorKind.RegexpCapture => 45
  | ErrorKind.RegexpCaptures => 46
  | ErrorKind.TakeWhile1 => 47
  | ErrorKind.Complete => 48
  | ErrorKind.Fix => 49
  | ErrorKind.Escaped => 50
  | ErrorKind.EscapedTransform => 51
  | ErrorKind.NonEmpty => 56
  | ErrorKind.ManyMN => 57
  | ErrorKind.HexDigit => 59
  | ErrorKind.OctDigit => 61
  | ErrorKind.Many0 => 62
  | ErrorKind.Not => 63
  | ErrorKind.Permutation => 64
  | ErrorKind.ManyTill => 65
  | ErrorKind.Verify => 66
  | ErrorKind.TakeTill1 => 67
  | ErrorKind.TakeWhileMN => 69
  | ErrorKind.TooLarge => 70
  | ErrorKind.Many0Count => 71
  | ErrorKind.Many1Count => 72
  | ErrorKind.Float => 73
  | ErrorKind.Satisfy => 74
  | ErrorKind.Fail => 75
  | ErrorKind.Many => 76
  | ErrorKind.Fold => 77
  | ErrorKind.BinDigit => 78
  | ErrorKind.Precedence => 79

/-- `ErrorKind::description` from `src/error.rs`: converts an `ErrorKind` to a
text description. Match arms in source order with the source's strings. -/
def ErrorKind.description : ErrorKind → String
  | ErrorKind.Tag => "Tag"
  | ErrorKind.MapRes => "Map on Result"
  | ErrorKind.MapOpt => "Map on Option"
  | ErrorKind.Alt => "Alternative"
  | ErrorKind.IsNot => "IsNot"
  | ErrorKind.IsA => "IsA"
  | ErrorKind.SeparatedList => "Separated list"
  | ErrorKind.SeparatedNonEmptyList => "Separated non empty list"
  | ErrorKind.Many0 => "Many0"
  | ErrorKind.Many1 => "Many1"
  | ErrorKind.Count => "Count"
  | ErrorKind.TakeUntil => "Take until"
  | ErrorKind.LengthValue => "Length followed by value"
  | ErrorKind.TagClosure => "Tag closure"
  | ErrorKind.Alpha => "Alphabetic"
  | ErrorKind.Digit => "Digit"
  | ErrorKind.AlphaNumeric => "AlphaNumeric"
  | ErrorKind.Space => "Space"
  | ErrorKind.MultiSpace => "Multiple spaces"
  | ErrorKind.LengthValueFn => "LengthValueFn"
  | ErrorKind.Eof => "End of file"
  | ErrorKind.Switch => "Switch"
  | ErrorKind.TagBits => "Tag on bitstream"
  | ErrorKind.OneOf => "OneOf"
  | ErrorKind.NoneOf => "NoneOf"
  | ErrorKind.Char => "Char"
  | ErrorKind.CrLf => "CrLf"
  | ErrorKind.RegexpMatch => "RegexpMatch"
  | ErrorKind.RegexpMatches => "RegexpMatches"
  | ErrorKind.RegexpFind => "RegexpFind"
  | ErrorKind.RegexpCapture => "RegexpCapture"
  | ErrorKind.RegexpCaptures => "RegexpCaptures"
  | ErrorKind.TakeWhile1 => "TakeWhile1"
  | ErrorKind.Complete => "Complete"
  | ErrorKind.Fix => "Fix"
  | ErrorKind.Escaped => "Escaped"
  | ErrorKind.EscapedTransform => "EscapedTransform"
  | ErrorKind.NonEmpty => "NonEmpty"
  | ErrorKind.ManyMN => "Many(m, n)"
  | ErrorKind.HexDigit => "Hexadecimal Digit"
  | ErrorKind.OctDigit => "Octal digit"
  | ErrorKind.BinDigit => "Binary digit"
  | ErrorKind.Not => "Negation"
  | ErrorKind.Permutation => "Permutation"
  | ErrorKind.ManyTill => "ManyTill"
  | ErrorKind.Verify => "predicate verification"
  | ErrorKind.TakeTill1 => "TakeTill1"
  | ErrorKind.TakeWhileMN => "TakeWhileMN"
  | ErrorKind.TooLarge => "Needed data size is too large"
  | ErrorKind.Many0Count => "Count occurrence of >=0 patterns"
  | ErrorKind.Many1Count => "Count occurrence of >=1 patterns"
  | ErrorKind.Float => "Float"
  | ErrorKind.Satisfy => "Satisfy"
  | ErrorKind.Fail => "Fail"
  | ErrorKind.Many => "Many"
  | ErrorKind.Fold => "Fold"
  | ErrorKind.Precedence => "Precedence"

/-- The output of Rust's derived `Debug` formatting on `ErrorKind`
(the source has `#[derive(Debug, ...)]` on the enum): each fieldless variant
prints as its own identifier. Used by the `Display` impl of `Error<I>`. -/
def ErrorKind.debugName : ErrorKind → String
  | ErrorKind.Tag => "Tag"
  | ErrorKind.MapRes => "MapRes"
  | ErrorKind.MapOpt => "MapOpt"
  | ErrorKind.Alt => "Alt"
  | ErrorKind.IsNot => "IsNot"
  | ErrorKind.IsA => "IsA"
  | ErrorKind.SeparatedList => "SeparatedList"
  | ErrorKind.SeparatedNonEmptyList => "SeparatedNonEmptyList"
  | ErrorKind.Many0 => "Many0"
  | ErrorKind.Many1 => "Many1"
  | ErrorKind.ManyTill => "ManyTill"
  | ErrorKind.Count => "Count"
  | ErrorKind.TakeUntil => "TakeUntil"
  | ErrorKind.LengthValue => "LengthValue"
  | ErrorKind.TagClosure => "TagClosure"
  | ErrorKind.Alpha => "Alpha"
  | ErrorKind.Digit => "Digit"
  | ErrorKind.HexDigit => "HexDigit"
  | ErrorKind.OctDigit => "OctDigit"
  | ErrorKind.BinDigit => "BinDigit"
  | ErrorKind.AlphaNumeric => "AlphaNumeric"
  | ErrorKind.Space => "Space"
  | ErrorKind.MultiSpace => "MultiSpace"
  | ErrorKind.LengthValueFn => "LengthValueFn"
  | ErrorKind.Eof => "Eof"
  | ErrorKind.Switch => "Switch"
  | ErrorKind.TagBits => "TagBits"
  | ErrorKind.OneOf => "OneOf"
  | ErrorKind.NoneOf => "NoneOf"
  | ErrorKind.Char => "Char"
  | ErrorKind.CrLf => "CrLf"
  | ErrorKind.RegexpMatch => "RegexpMatch"
  | ErrorKind.RegexpMatches => "RegexpMatches"
  | ErrorKind.RegexpFind => "RegexpFind"
  | ErrorKind.RegexpCapture => "RegexpCapture"
  | ErrorKind.RegexpCaptures => "RegexpCaptures"
  | ErrorKind.TakeWhile1 => "TakeWhile1"
  | ErrorKind.Complete => "Complete"
  | ErrorKind.Fix => "Fix"
  | ErrorKind.Escaped => "Escaped"
  | ErrorKind.EscapedTransform => "EscapedTransform"
  | ErrorKind.NonEmpty => "NonEmpty"
  | ErrorKind.ManyMN => "ManyMN"
  | ErrorKind.Not => "Not"
  | ErrorKind.Permutation => "Permutation"
  | ErrorKind.Verify => "Verify"
  | ErrorKind.TakeTill1 => "TakeTill1"
  | ErrorKind.TakeWhileMN => "TakeWhileMN"
  | ErrorKind.TooLarge => "TooLarge"
  | ErrorKind.Many0Count => "Many0Count"
  | ErrorKind.Many1Count => "Many1Count"
  | ErrorKind.Float => "Float"
  | ErrorKind.Satisfy => "Satisfy"
  | ErrorKind.Fail => "Fail"
  | ErrorKind.Many => "Many"
  | ErrorKind.Fold => "Fold"
  | ErrorKind.Precedence => "Precedence"

/-- Partial inverse of `error_to_u32`, used to prove the code table injective. -/
def u32_to_error : Nat → Option ErrorKind
  | 1 => some ErrorKind.Tag
  | 2 => some ErrorKind.MapRes
  | 3 => some ErrorKind.MapOpt
  | 4 => some ErrorKind.Alt
  | 5 => some ErrorKind.IsNot
  | 6 => some ErrorKind.IsA
  | 7 => some ErrorKind.SeparatedList
  | 8 => some ErrorKind.SeparatedNonEmptyList
  | 9 => some ErrorKind.Many1
  | 10 => some ErrorKind.Count
  | 12 => some ErrorKind.TakeUntil
  | 15 => some ErrorKind.LengthValue
  | 16 => some ErrorKind.TagClosure
  | 17 => some ErrorKind.Alpha
  | 18 => some ErrorKind.Digit
  | 19 => some ErrorKind.AlphaNumeric
  | 20 => some ErrorKind.Space
  | 21 => some ErrorKind.MultiSpace
  | 22 => some ErrorKind.LengthValueFn
  | 23 => some ErrorKind.Eof
  | 27 => some ErrorKind.Switch
  | 28 => some ErrorKind.TagBits
  | 29 => some ErrorKind.OneOf
  | 30 => some ErrorKind.NoneOf
  | 40 => some ErrorKind.Char
  | 41 => some ErrorKind.CrLf
  | 42 => some ErrorKind.RegexpMatch
  | 43 => some ErrorKind.RegexpMatches
  | 44 => some ErrorKind.RegexpFind
  | 45 => some ErrorKind.RegexpCapture
  | 46 => some ErrorKind.RegexpCaptures
  | 47 => some ErrorKind.TakeWhile1
  | 48 => some ErrorKind.Complete
  | 49 => some ErrorKind.Fix
  | 50 => some ErrorKind.Escaped
  | 51 => some ErrorKind.EscapedTransform
  | 56 => some ErrorKind.NonEmpty
  | 57 => some ErrorKind.ManyMN
  | 59 => some ErrorKind.HexDigit
  | 61 => some ErrorKind.OctDigit
  | 62 => some ErrorKind.Many0
  | 63 => some ErrorKind.Not
  | 64 => some ErrorKind.Permutation
  | 65 => some ErrorKind.ManyTill
  | 66 => some ErrorKind.Verify
  | 67 => some ErrorKind.TakeTill1
  | 69 => some ErrorKind.TakeWhileMN
  | 70 => some ErrorKind.TooLarge
  | 71 => some ErrorKind.Many0Count
  | 72 => some ErrorKind.Many1Count
  | 73 => some ErrorKind.Float
  | 74 => some ErrorKind.Satisfy
  | 75 => some ErrorKind.Fail
  | 76 => some ErrorKind.Many
  | 77 => some ErrorKind.Fold
  | 78 => some ErrorKind.BinDigit
  | 79 => some ErrorKind.Precedence
  | _ => none

/-- Partial inverse of `ErrorKind.description`, used to prove the description
table injective. -/
def description_to_kind : String → Option ErrorKind
  | "Tag" => some ErrorKind.Tag
  | "Map on Result" => some ErrorKind.MapRes
  | "Map on Option" => some ErrorKind.MapOpt
  | "Alternative" => some ErrorKind.Alt
  | "IsNot" => some ErrorKind.IsNot
  | "IsA" => some ErrorKind.IsA
  | "Separated list" => some ErrorKind.SeparatedList
  | "Separated non empty list" => some ErrorKind.SeparatedNonEmptyList
  | "Many0" => some ErrorKind.Many0
  | "Many1" => some ErrorKind.Many1
  | "Count" => some ErrorKind.Count
  | "Take until" => some ErrorKind.TakeUntil
  | "Length followed by value" => some ErrorKind.LengthValue
  | "Tag closure" => some ErrorKind.TagClosure
  | "Alphabetic" => some ErrorKind.Alpha
  | "Digit" => some ErrorKind.Digit
  | "AlphaNumeric" => some ErrorKind.AlphaNumeric
  | "Space" => some ErrorKind.Space
  | "Multiple spaces" => some ErrorKind.MultiSpace
  | "LengthValueFn" => some ErrorKind.LengthValueFn
  | "End of file" => some ErrorKind.Eof
  | "Switch" => some ErrorKind.Switch
  | "Tag on bitstream" => some ErrorKind.TagBits
  | "OneOf" => some ErrorKind.OneOf
  | "NoneOf" => some ErrorKind.NoneOf
  | "Char" => some ErrorKind.Char
  | "CrLf" => some ErrorKind.CrLf
  | "RegexpMatch" => some ErrorKind.RegexpMatch
  | "RegexpMatches" => some ErrorKind.RegexpMatches
  | "RegexpFind" => some ErrorKind.RegexpFind
  | "RegexpCapture" => some ErrorKind.RegexpCapture
  | "RegexpCaptures" => some ErrorKind.RegexpCaptures
  | "TakeWhile1" => some ErrorKind.TakeWhile1
  | "Complete" => some ErrorKind.Complete
  | "Fix" => some ErrorKind.Fix
  | "Escaped" => some ErrorKind.Escaped
  | "EscapedTransform" => some ErrorKind.EscapedTransform
  | "NonEmpty" => some ErrorKind.NonEmpty
  | "Many(m, n)" => some ErrorKind.ManyMN
  | "Hexadecimal Digit" => some ErrorKind.HexDigit
  | "Octal digit" => some ErrorKind.OctDigit
  | "Binary digit" => some ErrorKind.BinDigit
  | "Negation" => some ErrorKind.Not
  | "Permutation" => some ErrorKind.Permutation
  | "ManyTill" => some ErrorKind.ManyTill
  | "predicate verification" => some ErrorKind.Verify
  | "TakeTill1" => some ErrorKind.TakeTill1
  | "TakeWhileMN" => some ErrorKind.TakeWhileMN
  | "Needed data size is too large" => some ErrorKind.TooLarge
  | "Count occurrence of >=0 patterns" => some ErrorKind.Many0Count
  | "Count occurrence of >=1 patterns" => some ErrorKind.Many1Count
  | "Float" => some ErrorKind.Float
  | "Satisfy" => some ErrorKind.Satisfy
  | "Fail" => some ErrorKind.Fail
  | "Many" => some ErrorKind.Many
  | "Fold" => some ErrorKind.Fold
  | "Precedence" => some ErrorKind.Precedence
  | _ => none

/-- The default error type `Error<I>` from `src/error.rs`: only the error's
location and code. -/
structure Error (I : Type) : Type where
  input : I
  code : ErrorKind
deriving DecidableEq

/-- `Error::new` from `src/error.rs`. -/
def Error.new {I : Type} (input : I) (code : ErrorKind) : Error I :=
  { input := input, code := code }

/-- The `ParseError<I>` trait from `src/error.rs`, with the source's default
method bodies for `from_char` and `or` as Lean default fields. -/
class ParseError (I : Type) (E : Type) : Type where
  from_error_kind : I → ErrorKind → E
  append : I → ErrorKind → E → E
  from_char : I → Char → E := fun input _ => from_error_kind input ErrorKind.Char
  or : E → E → E := fun _self other => other

/-- The `ContextError<I>` trait from `src/error.rs`; its single method
defaults to returning `other` unchanged. -/
class ContextError (I : Type) (E : Type) : Type where
  add_context : I → String → E → E := fun _input _ctx other => other

/-- The `FromExternalError<I, E>` trait from `src/error.rs` (the foreign error
type is called `Ext` here). -/
class FromExternalError (I : Type) (Ext : Type) (E : Type) : Type where
  from_external_error : I → ErrorKind → Ext → E

/-- `impl ParseError<I> for Error<I>`: `from_error_kind` builds the record,
`append` discards its first two arguments and returns `other`; `from_char`
and `or` are inherited trait defaults. -/
instance {I : Type} : ParseError I (Error I) where
  from_error_kind input kind := { input := input, code := kind }
  append _ _ other := other

/-- `impl ContextError<I> for Error<I> {}`: the empty impl, everything is the
trait default. -/
instance {I : Type} : ContextError I (Error I) where

/-- `impl FromExternalError<I, E> for Error<I>`: keeps position and kind,
discards the foreign error. -/
instance {I Ext : Type} : FromExternalError I Ext (Error I) where
  from_external_error input kind _e := { input := input, code := kind }

/-- `Error::cloned` from `src/error.rs`: converts `Error<&I>` into
`Error<I::Owned>` by cloning. The borrow is modelled by the value itself and
`to_owned` by an explicit conversion function. -/
def Error.cloned {I J : Type} (to_owned : I → J) (e : Error I) : Error J :=
  { input := to_owned e.input, code := e.code }

/-- `Error::copied` from `src/error.rs`: converts `Error<&I>` into `Error<I>`
by copying; dereferencing the modelled borrow is the identity on content. -/
def Error.copied {I : Type} (e : Error I) : Error I :=
  { input := e.input, code := e.code }

/-- The `Display` impl for `Error<I>` from `src/error.rs`:
`write!(f, "error {:?} at: {}", self.code, self.input)`, where `{:?}` is the
derived `Debug` of the code and `{}` the `Display` of the input (modelled by
the function `displayInput`). -/
def Error.fmt {I : Type} (displayInput : I → String) (e : Error I) : String :=
  "error " ++ ErrorKind.debugName e.code ++ " at: " ++ displayInput e.input

/-- `impl ParseError<I> for (I, ErrorKind)`: the legacy tuple error type. -/
instance {I : Type} : ParseError I (I × ErrorKind) where
  from_error_kind input kind := (input, kind)
  append _ _ other := other

/-- `impl ContextError<I> for (I, ErrorKind) {}`. -/
instance {I : Type} : ContextError I (I × ErrorKind) where

/-- `impl FromExternalError<I, E> for (I, ErrorKind)`. -/
instance {I Ext : Type} : FromExternalError I Ext (I × ErrorKind) where
  from_external_error input kind _e := (input, kind)

/-- `impl ParseError<I> for ()`: the unit error type. -/
instance {I : Type} : ParseError I Unit where
  from_error_kind _ _ := ()
  append _ _ _ := ()

/-- `impl ContextError<I> for () {}`. -/
instance {I : Type} : ContextError I Unit where

/-- `impl FromExternalError<I, E> for ()`. -/
instance {I Ext : Type} : FromExternalError I Ext Unit where
  from_external_error _input _kind _e := ()

/-- `make_error` from `src/error.rs`. -/
def make_error {I E : Type} [ParseError I E] (input : I) (kind : ErrorKind) : E :=
  ParseError.from_error_kind input kind

/-- `append_error` from `src/error.rs`. -/
def append_error {I E : Type} [ParseError I E] (input : I) (kind : ErrorKind)
    (other : E) : E :=
  ParseError.append input kind other

/-- `Needed` from nom's internal module: the amount-needed hint carried by the
incomplete outcome (`Size` carries a nonzero byte count, modelled by `Nat`). -/
inductive Needed : Type
  | Unknown : Needed
  | Size : Nat → Needed
deriving DecidableEq

/-- `Err<E>` from nom's internal module: the three failing outcomes of a parse
step. -/
inductive Err (E : Type) : Type
  | Incomplete : Needed → Err E
  | Error : E → Err E
  | Failure : E → Err E

/-- The result of one parsing step: success with remaining input and output,
or one of the `Err` outcomes (the materialized output mode of `PResult`). -/
def PResult (I O E : Type) : Type :=
  Except (Err E) (I × O)

/-- The `Context<F>` struct from `src/error.rs`: parser implementation for the
`context` combinator. A wrapped parsing step is modelled as a function from
input to `PResult`. -/
structure Context (F : Type) : Type where
  context : String
  parser : F

/-- The `context` free function from `src/error.rs`. -/
def context {F : Type} (ctx : String) (p : F) : Context F :=
  { context := ctx, parser := p }

/-- `Context::process` from `src/error.rs`: run the wrapped step on a clone of
the input; on `Err::Error` or `Err::Failure` wrap the payload with
`add_context` anchored at the original input position; propagate everything
else unchanged. -/
def Context.process {I O E : Type} [ContextError I E]
    (c : Context (I → PResult I O E)) (input : I) : PResult I O E :=
  match c.parser input with
  | Except.error (Err.Error e) =>
      Except.error (Err.Error (ContextError.add_context input c.context e))
  | Except.error (Err.Failure e) =>
      Except.error (Err.Failure (ContextError.add_context input c.context e))
  | x => x

/-- The context-tracking error type from the test module of `src/error.rs`
(`struct Error { input, ctx }` in `mod tests`), used to exercise the context
combinator on concrete inputs. -/
structure CtxError (I : Type) : Type where
  input : I
  ctx : Option String
deriving DecidableEq

/-- The test module's `ParseError` impl for its context-tracking error type. -/
instance {I : Type} : ParseError I (CtxError I) where
  from_error_kind input _kind := { input := input, ctx := none }
  append input _kind other := { input := input, ctx := other.ctx }

/-- The test module's `ContextError` impl: record the label and the position
it was added at. -/
instance {I : Type} : ContextError I (CtxError I) where
  add_context input ctx _other := { input := input, ctx := some ctx }

/-- A complete-input recognizer for the character `a` over string input,
mirroring `char::<_, Error<_>>('a')` under `parse_complete` in the test module
of `src/error.rs`: succeeds consuming one character when the input starts with
`a`, otherwise reports a recoverable `Char` error at the current position. -/
def charA : String → PResult String Char (CtxError String) := fun i =>
  match i.data with
  | [] => Except.error (Err.Error (ParseError.from_error_kind i ErrorKind.Char))
  | c :: rest =>
      if c = 'a' then Except.ok (String.mk rest, c)
      else Except.error (Err.Error (ParseError.from_error_kind i ErrorKind.Char))

/-- The numeric-code table is a left inverse pair with `u32_to_error`. -/
lemma u32_to_error_left_inverse (k : ErrorKind) :
    u32_to_error (error_to_u32 k) = some k := by
  cases k <;> rfl

/-- The description table is a left inverse pair with `description_to_kind`. -/
lemma description_to_kind_left_inverse (k : ErrorKind) :
    description_to_kind (ErrorKind.description k) = some k := by
  cases k <;> rfl

/-- C1: the `context` combinator wraps a recoverable error with
`add_context` at the pre-attempt position, wraps an unrecoverable failure the
same way while preserving its failure status, and propagates success and
needs-more-input outcomes unchanged. -/
theorem context_process_spec (I O E : Type) [ContextError I E]
    (L : String) (p : I → PResult I O E) (i : I) :
    (∀ e, p i = Except.error (Err.Error e) →
      Context.process (context L p) i =
        Except.error (Err.Error (ContextError.add_context i L e))) ∧
    (∀ e, p i = Except.error (Err.Failure e) →
      Context.process (context L p) i =
        Except.error (Err.Failure (ContextError.add_context i L e))) ∧
    (∀ n, p i = Except.error (Err.Incomplete n) →
      Context.process (context L p) i = p i) ∧
    (∀ r o, p i = Except.ok (r, o) →
      Context.process (context L p) i = p i) := by
  refine ⟨fun e h => ?_, fun e h => ?_, fun n h => ?_, fun r o h => ?_⟩ <;>
    simp [Context.process, context, h]

/-- Witness for C1: wrapping the complete-mode recognizer for `a` with label
`ctx` and running it on the empty string yields a recoverable error annotated
with the label, anchored at the pre-attempt position — the concrete scenario
of the source's test module. -/
theorem context_process_spec_witness :
    Context.process (context "ctx" charA) "" =
      Except.error (Err.Error ({ input := "", ctx := some "ctx" } : CtxError String)) :=
  (context_process_spec String Char (CtxError String) "ctx" charA "").1
    { input := "", ctx := none } rfl

/-- C2: `append` on the default error type returns the previous error
unchanged for every position and kind (innermost-wins law). -/
theorem error_append_innermost_wins (I : Type) (pos2 : I) (k2 : ErrorKind)
    (e : Error I) :
    ParseError.append pos2 k2 e = e := rfl

/-- C3: the numeric-code table `error_to_u32` and the description table
`ErrorKind.description` are total functions on the closed `ErrorKind`
enumeration and both are injective. -/
theorem error_kind_code_and_description_injective :
    Function.Injective error_to_u32 ∧ Function.Injective ErrorKind.description := by
  refine ⟨fun a b h => ?_, fun a b h => ?_⟩
  · have ha := u32_to_error_left_inverse a
    rw [h, u32_to_error_left_inverse b] at ha
    exact (Option.some.inj ha).symm
  · have ha := description_to_kind_left_inverse a
    rw [h, description_to_kind_left_inverse b] at ha
    exact (Option.some.inj ha).symm

/-- C4: `or` on the default error type (the trait default, not overridden by
`Error<I>`) returns the later-tried branch's error. -/
theorem error_or_later_branch_wins (I : Type) (e1 e2 : Error I) :
    ParseError.or (I := I) e1 e2 = e2 := rfl

/-- C5: `add_context` on the default error type — which is exactly the
`ContextError` trait's default method, since `Error<I>`'s impl is empty — is
the identity on its previous-error argument. -/
theorem error_add_context_identity (I : Type) (pos : I) (label : String)
    (previous : Error I) :
    ContextError.add_context pos label previous = previous := rfl

/-- C6: `from_error_kind` on the default error type stores the kind in `code`
and the position in `input`, for all positions and kinds. -/
theorem error_from_error_kind_fields (I : Type) (pos : I) (k : ErrorKind) :
    (ParseError.from_error_kind pos k : Error I).code = k ∧
    (ParseError.from_error_kind pos k : Error I).input = pos :=
  ⟨rfl, rfl⟩

/-- C7: `from_external_error` on the default error type equals
`Error { input := pos, code := k }` regardless of the foreign error value. -/
theorem error_from_external_error_discards_foreign (I Ext : Type) (pos : I)
    (k : ErrorKind) (e : Ext) :
    (FromExternalError.from_external_error pos k e : Error I) =
      { input := pos, code := k } := rfl

/-- C8: `cloned` and `copied` preserve the code exactly and produce an input
equal to `to_owned` of the original borrowed input (for `cloned`) or to the
dereferenced value (for `copied`); both are total Lean functions, so they have
no failure path. -/
theorem error_cloned_copied_preserve_content (I J : Type) (to_owned : I → J)
    (e1 : Error I) (e2 : Error I) :
    (Error.cloned to_owned e1).code = e1.code ∧
    (Error.cloned to_owned e1).input = to_owned e1.input ∧
    (Error.copied e2).code = e2.code ∧
    (Error.copied e2).input = e2.input :=
  ⟨rfl, rfl, rfl, rfl⟩

/-- Counterexample for C9: at input position rendered `x` with code `MapRes`,
the `Display` impl renders `error MapRes at: x` (the `Debug` variant name
after `error` with no colon), not `error: Map on Result at: x` as the claim
states. -/
theorem error_display_claim_counterexample :
    ¬ (Error.fmt (fun s => s) { input := "x", code := ErrorKind.MapRes } =
        "error: " ++ ErrorKind.description ErrorKind.MapRes ++ " at: " ++ "x") := by
  decide

/-- C9 (amended): the `Display` impl renders an error as the string `error `
followed by the `Debug` name of the code's variant, then ` at: `, then the
rendered position. -/
theorem error_display_format (I : Type) (displayInput : I → String) (i : I)
    (k : ErrorKind) :
    Error.fmt displayInput { input := i, code := k } =
      "error " ++ ErrorKind.debugName k ++ " at: " ++ displayInput i := rfl

/-- C10: the legacy tuple error type `(I, ErrorKind)` satisfies the default
laws — `from_error_kind` and `from_external_error` build the pair, `append`
returns the previous error, `add_context` is the identity — and every
operation on the unit error type returns `()`. -/
theorem legacy_tuple_and_unit_default_laws (I Ext : Type) (i : I)
    (k : ErrorKind) (e : Ext) (lbl : String) (prev : I × ErrorKind) (c : Char)
    (u1 u2 u3 : Unit) :
    (ParseError.from_error_kind i k : I × ErrorKind) = (i, k) ∧
    (FromExternalError.from_external_error i k e : I × ErrorKind) = (i, k) ∧
    ParseError.append i k prev = prev ∧
    ContextError.add_context i lbl prev = prev ∧
    (ParseError.from_error_kind i k : Unit) = () ∧
    ParseError.append i k u1 = () ∧
    (ParseError.from_char i c : Unit) = () ∧
    ParseError.or (I := I) u2 u3 = () ∧
    ContextError.add_context i lbl u1 = () ∧
    (FromExternalError.from_external_error i k e : Unit) = () :=
  ⟨rfl, rfl, rfl, rfl, rfl, rfl, rfl, rfl, rfl, rfl⟩

end Nom
